import Mathlib

/-!
Verification development for the NTRIP Checker PRO repository
(`ntrip_checker_pro_v5_0.py` and `ntrip_checker_pro_v5_2.py`).

The Python sources are shallowly embedded below:

* byte strings are `List Nat`, Python `pat in s` (contiguous substring) is
  `listContains`;
* `NTRIPClient.run` (the per-caster connection state machine, identical in
  the two files except for the shutdown-suppression branch of the `except`
  clause) is embedded as a fold of `procAtt` over a script of connection
  attempts, where each attempt records the socket's observable behaviour
  (connect-phase exception, or a handshake header followed by a list of
  successfully read chunks and a terminal read event) together with the
  placement of any `stop(user_initiated)` request;
* the GUI-side `on_data` handler (snapshot / decode / count / trim) is
  embedded as `gstep` over an abstract decoder, since the actual frame
  decoding is done by the external `pyrtcm` library;
* `extract_satellite_info` is embedded as `extract_satellite_info` over a
  small model of Python attribute values (`PyVal`), with Python's dynamic
  typing errors made explicit in an `Except` monad;
* the supervisor-level bookkeeping of `NTRIPCheckerPro`
  (`start_connection`, `remove_caster_by_name`, `show_edit_dialog`, and the
  stat-merging part of `on_data`) is embedded as operations on `AppState`.
-/

namespace NTRIP

/-! ## Bytes and strings -/

/-- Byte strings (Python `bytes`) as lists of naturals. -/
abbrev Bytes := List Nat

/-- Python's containment test `pat in l` for sequences: `pat` occurs as a
contiguous substring of `l`. -/
def listContains [DecidableEq α] (pat l : List α) : Bool :=
  l.tails.any fun t => pat.isPrefixOf t

/-- ASCII bytes of a string literal (models Python `b"..."`). -/
def strBytes (s : String) : Bytes :=
  s.toList.map Char.toNat

/-- Code points of `s.lower()` (ASCII case folding, which agrees with
Python's `str.lower()` on all the ASCII error texts involved). -/
def lowerCodes (s : String) : List Nat :=
  s.toList.map fun c =>
    let n := c.toNat
    if 65 ≤ n ∧ n ≤ 90 then n + 32 else n

/-- Python's `pat in msg.lower()` for an already-lowercase literal `pat`. -/
def containsLowered (msg pat : String) : Bool :=
  listContains (strBytes pat) (lowerCodes msg)

/-! ## The `NTRIPClient.run` state machine

`run` loops over connection attempts while
`reconnect_attempts <= 3 and not stop_event.is_set() and not user_stopped`.
Each attempt either raises during connect/handshake, or the handshake
header is received; an accepted header leads to the streaming read loop.
All raised exceptions funnel into the `except` clause, which classifies the
error text, emits status events and decides between retrying (after an
interruptible 10-second `stop_event.wait(10)`) and terminating. -/

/-- Events observable on the Qt signals of one client
(`status_signal`, `data_signal`, `disconnect_signal`); the caster name
argument is constant per client and omitted. -/
inductive Ev
  /-- status "✅ Connection OK" -/
  | ok
  /-- `data_signal` notification -/
  | dataAvail
  /-- status "⚠️ {label}" -/
  | warn (label : String)
  /-- status "🟡 Reconnecting (k/3)..." -/
  | reconnecting (k : Nat)
  /-- status "🔴 Disconnected ({label})" -/
  | disconnectedMsg (label : String)
  /-- `disconnect_signal`, emitted once when `run` returns -/
  | disconnectSig
deriving DecidableEq

/-- How the streaming read loop of one attempt ends. -/
inductive StreamEnd
  /-- `s.recv(4096)` raised an exception whose `str` is `msg` -/
  | readErr (msg : String)
  /-- `s.recv(4096)` returned `b""` (connection closed) -/
  | closed
  /-- the loop condition `self.running and not self.stop_event.is_set()`
  became false (a stop request arrived), so the loop exits without error -/
  | stopExit
deriving DecidableEq

/-- Observable behaviour of the socket during one connection attempt. -/
inductive Outcome
  /-- connect / request send / header read raised an exception whose
  `str` is `msg` (e.g. "timed out", "connection refused") -/
  | connErr (msg : String)
  /-- the handshake header was received; if it is accepted, `chunks` are
  the successful `recv` results in order, then the loop ends as `ending` -/
  | handshake (header : Bytes) (chunks : List Bytes) (ending : StreamEnd)
deriving DecidableEq

/-- One scripted connection attempt: the socket behaviour plus the
placement of a `stop(user_initiated)` call, if any.  `stopBeforeEnd u`
means `stop(u)` ran after the last successful read of this attempt and
before its terminal event was handled; `stopDuringWait u` means `stop(u)`
ran while this attempt's backoff `stop_event.wait(10)` was pending. -/
structure Att where
  outcome : Outcome
  stopBeforeEnd : Option Bool
  stopDuringWait : Option Bool
deriving DecidableEq

/-- The mutable state of one `NTRIPClient` instance relevant to `run`,
plus the trace of emitted events and a `done` flag marking that `run`
has left its retry loop. -/
structure CState where
  /-- `self.reconnect_attempts` -/
  ra : Nat
  /-- `self.stop_event.is_set()` -/
  se : Bool
  /-- `self.user_stopped` -/
  us : Bool
  /-- `self.total_bytes` -/
  totalBytes : Nat
  /-- `self.buffer` -/
  buffer : Bytes
  /-- events emitted so far, oldest first -/
  trace : List Ev
  /-- the outer `while` loop has been left -/
  done : Bool
deriving DecidableEq

/-- State of a freshly constructed `NTRIPClient` (`__init__`). -/
def initCState : CState :=
  ⟨0, false, false, 0, [], [], false⟩

/-- `stop(u)`: sets `user_stopped = u` and the stop event (the socket
force-close that makes a blocked read fail is part of the script). -/
def applyStop (req : Option Bool) (st : CState) : CState :=
  match req with
  | none => st
  | some u => { st with us := u, se := true }

/-- Error classification of `str(e).lower()` in the `except` clause. -/
def classifyError (msg : String) : String :=
  if containsLowered msg "rejected" || containsLowered msg "401" ||
      containsLowered msg "unauthorized" then
    "Authentication failed"
  else if containsLowered msg "timeout" || containsLowered msg "timed out" then
    "Connection timeout"
  else if containsLowered msg "refused" then
    "Connection refused"
  else
    "Network error"

/-- v5_2's `is_shutdown_error` text patterns (the fourth disjunct,
`self.stop_event.is_set()`, is checked on the state separately). -/
def isShutdownText (msg : String) : Bool :=
  containsLowered msg "winerror 10038" ||
  containsLowered msg "bad file descriptor" ||
  containsLowered msg "not a socket"

/-- Common tail of the `except` clause (identical in v5_0 and v5_2):
emit "⚠️ {label}", bump the attempt counter, then either emit
"🟡 Reconnecting (k/3)..." and wait interruptibly, or emit the final
"🔴 Disconnected ({label})" and break. -/
def handleExcCommon (msg : String) (st : CState) (waitStop : Option Bool) : CState :=
  let label := classifyError msg
  let st := { st with trace := st.trace ++ [Ev.warn label], ra := st.ra + 1 }
  if st.us = false ∧ st.ra ≤ 3 then
    let st := { st with trace := st.trace ++ [Ev.reconnecting st.ra] }
    let st := applyStop waitStop st
    if st.se then { st with done := true } else st
  else if st.us then { st with done := true }
  else { st with trace := st.trace ++ [Ev.disconnectedMsg label], done := true }

/-- The `except` clause of `NTRIPClient.run` in v5_0: suppression only
when the stop was user-initiated. -/
def exceptV50 (msg : String) (st : CState) (waitStop : Option Bool) : CState :=
  if st.us then { st with done := true }
  else handleExcCommon msg st waitStop

/-- The `except` clause of `NTRIPClient.run` in v5_2: additionally breaks
silently when the error text matches a socket-shutdown pattern or the
stop event is set. -/
def exceptV52 (msg : String) (st : CState) (waitStop : Option Bool) : CState :=
  if st.us then { st with done := true }
  else if isShutdownText msg || st.se then { st with done := true }
  else handleExcCommon msg st waitStop

/-- The two recognized 200-OK byte markers of the handshake. -/
def marker1 : Bytes := strBytes "ICY 200 OK"

/-- The second recognized 200-OK byte marker. -/
def marker2 : Bytes := strBytes "200 OK"

/-- `if b"ICY 200 OK" not in header and b"200 OK" not in header: raise`:
the header is accepted iff it contains one of the two markers. -/
def headerAccepted (header : Bytes) : Bool :=
  listContains marker1 header || listContains marker2 header

/-- One successful `recv`: under the client lock, add the chunk length to
`total_bytes` and append the bytes to `buffer`, then emit `data_signal`. -/
def readChunk (st : CState) (c : Bytes) : CState :=
  { st with totalBytes := st.totalBytes + c.length,
            buffer := st.buffer ++ c,
            trace := st.trace ++ [Ev.dataAvail] }

/-- Process one scripted connection attempt of `NTRIPClient.run`;
`exc` is the version-specific `except` clause. -/
def procAtt (exc : String → CState → Option Bool → CState) (st : CState) (a : Att) : CState :=
  if st.done then st
  else if ¬ (st.ra ≤ 3 ∧ st.se = false ∧ st.us = false) then { st with done := true }
  else
    match a.outcome with
    | Outcome.connErr msg => exc msg (applyStop a.stopBeforeEnd st) a.stopDuringWait
    | Outcome.handshake header chunks ending =>
      if headerAccepted header then
        let st := { st with ra := 0, trace := st.trace ++ [Ev.ok] }
        let st := chunks.foldl readChunk st
        let st := applyStop a.stopBeforeEnd st
        match ending with
        | StreamEnd.stopExit => { st with done := true }
        | StreamEnd.readErr msg =>
          if st.us then { st with done := true } else exc msg st a.stopDuringWait
        | StreamEnd.closed =>
          if st.us then { st with done := true }
          else exc "Connection closed by server" st a.stopDuringWait
      else
        exc "NTRIP server rejected connection" (applyStop a.stopBeforeEnd st) a.stopDuringWait

/-- Run the retry loop of `NTRIPClient.run` over a script of attempts. -/
def runScript (exc : String → CState → Option Bool → CState) (script : List Att) : CState :=
  script.foldl (procAtt exc) initCState

/-- `NTRIPClient.run` of `ntrip_checker_pro_v5_0.py`. -/
def runV50 (script : List Att) : CState := runScript exceptV50 script

/-- `NTRIPClient.run` of `ntrip_checker_pro_v5_2.py`. -/
def runV52 (script : List Att) : CState := runScript exceptV52 script

/-- The events emitted by a completed call of `run`: the trace of the loop
followed by the single trailing `disconnect_signal`. -/
def finalTrace (st : CState) : List Ev := st.trace ++ [Ev.disconnectSig]

/-! ## The `on_data` handler: snapshot, decode, count, trim

`NTRIPCheckerPro.on_data` snapshots the client's buffer under the client
lock, feeds the snapshot to `RTCMReader` (the external `pyrtcm` library),
counts each yielded frame's identity into `rtcm_stats[caster]`, and finally
trims `stream.tell()` bytes off the front of the (possibly concurrently
grown) buffer under the same lock.  If the decode iteration raises, the
surrounding `try` jumps to `except` and the trim is skipped.

The decoder is abstract: a function from the byte snapshot to the list of
yielded frame identities, the consumed-byte count reached when iteration
stops normally, and whether the iteration instead raised. -/

/-- Result of iterating `RTCMReader(stream)` over one byte snapshot. -/
structure DecodeRes where
  /-- `identity` values of the frames yielded, in order -/
  frames : List String
  /-- `stream.tell()` when the iteration ends without raising -/
  consumed : Nat
  /-- the iteration raised after yielding `frames` -/
  errored : Bool

/-- An abstract stateless decoder (pyrtcm is stateless across `on_data`
calls: a fresh `RTCMReader` is built from each snapshot). -/
abbrev Decoder := Bytes → DecodeRes

/-- `caster_msgs[msg_type]["count"] += 1` for one frame identity
(`rtcm_stats` counts for a fixed caster, as a total function that is `0`
on identities never seen). -/
def bumpStat (stats : String → Nat) (id : String) : String → Nat :=
  fun k => if k = id then stats id + 1 else stats k

/-- The counting loop body of `on_data`: frames with a falsy identity
(`if not msg_type: continue`) are skipped. -/
def countFrames (stats : String → Nat) (frames : List String) : String → Nat :=
  frames.foldl (fun f id => if id = "" then f else bumpStat f id) stats

/-- Events of the GUI-side buffer/stats model for one caster.  A
`decodePass mid` is one `on_data` invocation during which the network
thread appends the chunks `mid` between the snapshot and the trim. -/
inductive GEv
  /-- the network thread appends chunk `c` under the client lock -/
  | recvChunk (c : Bytes)
  /-- one `on_data` call; `mid` are chunks appended concurrently between
  the buffer snapshot and the buffer trim -/
  | decodePass (mid : List Bytes)

/-- State of the client buffer and per-caster message stats, together with
specification-only bookkeeping (`appended`, `consumed`, `yielded`) used to
state the invariants; the bookkeeping fields are not read by `gstep`. -/
structure GState where
  /-- `client.buffer` -/
  buffer : Bytes
  /-- `rtcm_stats[caster][·]["count"]` -/
  stats : String → Nat
  /-- bookkeeping: every byte ever appended, in order -/
  appended : Bytes
  /-- bookkeeping: total bytes trimmed off the buffer front -/
  consumed : Nat
  /-- bookkeeping: every counted (non-falsy) frame identity, in order -/
  yielded : List String

/-- Initial `GState`: empty buffer, no stats. -/
def initGState : GState :=
  ⟨[], fun _ => 0, [], 0, []⟩

/-- One step of the buffer/stats model.  A `decodePass` mirrors `on_data`:
snapshot under the lock; if the snapshot is empty return early (the
concurrent appends land regardless); otherwise decode the snapshot, count
the yielded frames, and—only if the iteration did not raise—trim exactly
the first `consumed` bytes of the current buffer under the lock
(`client.buffer = client.buffer[consumed:]`, a length-based trim of the
buffer that meanwhile also contains the `mid` chunks). -/
def gstep (dec : Decoder) (st : GState) : GEv → GState
  | GEv.recvChunk c =>
    { st with buffer := st.buffer ++ c, appended := st.appended ++ c }
  | GEv.decodePass mid =>
    let snap := st.buffer
    let st' : GState := { st with buffer := st.buffer ++ mid.flatten,
                                  appended := st.appended ++ mid.flatten }
    if snap.isEmpty then st'
    else
      let r := dec snap
      let st' := { st' with stats := countFrames st'.stats r.frames,
                            yielded := st'.yielded ++ r.frames.filter (fun i => i ≠ "") }
      if r.errored then st'
      else { st' with buffer := st'.buffer.drop r.consumed,
                      consumed := st'.consumed + r.consumed }

/-- Replay of a whole event sequence. -/
def grun (dec : Decoder) (evs : List GEv) : GState :=
  evs.foldl (gstep dec) initGState

/-! ## `extract_satellite_info`

A small model of Python attribute values suffices for the dynamic typing
behaviour that `extract_satellite_info` exercises: integers, strings and
`None`.  Attribute lookups with a `getattr` default are `Option PyVal`
with `Option.getD`.  Python raises `TypeError` on an order comparison
between a non-int and an int; only `ValueError` and `AttributeError` are
caught by the function's `try`, so such a `TypeError` escapes. -/

/-- Decidable equality for `Except` results. -/
instance exceptDecEq {ε α : Type} [DecidableEq ε] [DecidableEq α] :
    DecidableEq (Except ε α)
  | Except.ok a, Except.ok b =>
    if h : a = b then isTrue (by rw [h])
    else isFalse (fun hh => h (Except.ok.inj hh))
  | Except.ok _, Except.error _ => isFalse (fun h => Except.noConfusion h)
  | Except.error _, Except.ok _ => isFalse (fun h => Except.noConfusion h)
  | Except.error e, Except.error f =>
    if h : e = f then isTrue (by rw [h])
    else isFalse (fun hh => h (Except.error.inj hh))

/-- A Python attribute value. -/
inductive PyVal
  | vint (n : Int)
  | vstr (s : String)
  | vnone
deriving DecidableEq

/-- The uncaught Python exception the model can produce. -/
inductive PyErr
  | typeError
deriving DecidableEq

/-- Python `str(v)` for the modelled values. -/
def pyStr : PyVal → String
  | PyVal.vint n => toString n
  | PyVal.vstr s => s
  | PyVal.vnone => "None"

/-- Digit-string to number, `none` on empty input or a non-digit. -/
def parseDigits (cs : List Char) : Option Nat :=
  if cs.isEmpty then none
  else
    cs.foldl
      (fun acc c =>
        match acc with
        | some a => if c.isDigit then some (a * 10 + (c.toNat - 48)) else none
        | none => none)
      (some 0)

/-- Model of Python `int(s)` restricted to an optional sign followed by
decimal digits (no surrounding whitespace or underscore separators, which
never occur in the RTCM identities at hand); `none` models `ValueError`. -/
def pyIntParse (s : String) : Option Int :=
  match s.toList with
  | '-' :: rest => (parseDigits rest).map (fun n => -(n : Int))
  | '+' :: rest => (parseDigits rest).map (fun n => (n : Int))
  | cs => (parseDigits cs).map (fun n => (n : Int))

/-- Python truthiness of the modelled values. -/
def pyTruthy : PyVal → Bool
  | PyVal.vint n => n ≠ 0
  | PyVal.vstr s => s ≠ ""
  | PyVal.vnone => false

/-- Python `v > 0`: a `TypeError` unless `v` is an int. -/
def pyGtZero : PyVal → Except PyErr Bool
  | PyVal.vint n => Except.ok (decide (0 < n))
  | _ => Except.error PyErr.typeError

/-- The int payload of a value already known to be `vint`. -/
def pyIntVal : PyVal → Int
  | PyVal.vint n => n
  | _ => 0

/-- Python `m & (1 << k) != 0` for arbitrary ints (two's complement
semantics: floor division and Euclidean remainder). -/
def pyBitSet (m : Int) (k : Nat) : Bool :=
  decide (Int.fdiv m (2 ^ k) % 2 ≠ 0)

/-- Python `set.add`: append the element unless already present (a
deterministic dedup-list model of a Python set; only membership and
growth are observable in the claims). -/
def addElem [DecidableEq α] (l : List α) (x : α) : List α :=
  if x ∈ l then l else l ++ [x]

/-- Python `set.update` (union merge): add every element of `b` to `a`. -/
def listUnion [DecidableEq α] (a b : List α) : List α :=
  b.foldl addElem a

/-- The six GNSS constellations. -/
inductive CName
  | gps | glonass | galileo | sbas | qzss | beidou
deriving DecidableEq

/-- A dict keyed by exactly the six constellation names (the `satellites`
and `signals` dicts of `extract_satellite_info` and the per-caster
`satellite_stats` / `signal_stats` entries). -/
structure ConstMap (α : Type) where
  gps : α
  glonass : α
  galileo : α
  beidou : α
  qzss : α
  sbas : α
deriving DecidableEq

/-- Look up one constellation's entry. -/
def ConstMap.get (m : ConstMap α) : CName → α
  | CName.gps => m.gps
  | CName.glonass => m.glonass
  | CName.galileo => m.galileo
  | CName.beidou => m.beidou
  | CName.qzss => m.qzss
  | CName.sbas => m.sbas

/-- Replace one constellation's entry. -/
def ConstMap.set (m : ConstMap α) (c : CName) (v : α) : ConstMap α :=
  match c with
  | CName.gps => { m with gps := v }
  | CName.glonass => { m with glonass := v }
  | CName.galileo => { m with galileo := v }
  | CName.beidou => { m with beidou := v }
  | CName.qzss => { m with qzss := v }
  | CName.sbas => { m with sbas := v }

/-- The all-empty satellite dict. -/
def emptySats : ConstMap (List Int) := ⟨[], [], [], [], [], []⟩

/-- The all-empty signal dict. -/
def emptySigs : ConstMap (List String) := ⟨[], [], [], [], [], []⟩

/-- The `constellation_map` dict: `(msg_num - 1071) // 10` to name. -/
def constellationMap : Nat → Option CName
  | 0 => some CName.gps
  | 1 => some CName.glonass
  | 2 => some CName.galileo
  | 3 => some CName.sbas
  | 4 => some CName.qzss
  | 5 => some CName.beidou
  | _ => none

/-- The `signal_map` table: constellation-specific signal-ID to name. -/
def signalMap : CName → Nat → Option String
  | CName.gps, 1 => some "L1 C/A"
  | CName.gps, 2 => some "L1 P(Y)"
  | CName.gps, 3 => some "L1 M"
  | CName.gps, 4 => some "L2 P(Y)"
  | CName.gps, 5 => some "L2 C"
  | CName.gps, 6 => some "L2 M"
  | CName.gps, 7 => some "L5 I"
  | CName.gps, 8 => some "L5 Q"
  | CName.glonass, 1 => some "G1 C/A"
  | CName.glonass, 2 => some "G1 P"
  | CName.glonass, 3 => some "G2 C/A"
  | CName.glonass, 4 => some "G2 P"
  | CName.glonass, 5 => some "G3 I"
  | CName.glonass, 6 => some "G3 Q"
  | CName.galileo, 1 => some "E1 C"
  | CName.galileo, 2 => some "E1 A"
  | CName.galileo, 3 => some "E1 B"
  | CName.galileo, 4 => some "E5a I"
  | CName.galileo, 5 => some "E5a Q"
  | CName.galileo, 6 => some "E5b I"
  | CName.galileo, 7 => some "E5b Q"
  | CName.galileo, 8 => some "E6 C"
  | CName.beidou, 1 => some "B1 I"
  | CName.beidou, 2 => some "B1 Q"
  | CName.beidou, 3 => some "B2 I"
  | CName.beidou, 4 => some "B2 Q"
  | CName.beidou, 5 => some "B3 I"
  | CName.beidou, 6 => some "B3 Q"
  | CName.qzss, 1 => some "L1 C/A"
  | CName.qzss, 2 => some "L1 S"
  | CName.qzss, 4 => some "L2 C"
  | CName.qzss, 5 => some "L2 L"
  | CName.qzss, 7 => some "L5 I"
  | CName.qzss, 8 => some "L5 Q"
  | CName.qzss, 9 => some "L6 I"
  | CName.qzss, 10 => some "L6 Q"
  | CName.sbas, 1 => some "L1 C/A"
  | CName.sbas, 7 => some "L5 I"
  | CName.sbas, 8 => some "L5 Q"
  | _, _ => none

/-- `signal_map[constellation].get(sig_id, f"Signal {sig_id}")`. -/
def signalName (c : CName) (id : Nat) : String :=
  (signalMap c id).getD (s!"Signal {id}")

/-- A parsed RTCM frame object as `extract_satellite_info` accesses it.
`PRN i` models the dynamically named attribute `PRN_{i:02d}`. -/
structure Parsed where
  /-- attribute `identity` (absent: `getattr` default `""`) -/
  identity : Option PyVal
  /-- attribute `NSat` (absent: `getattr` default `0`) -/
  NSat : Option PyVal
  /-- attribute `NSig` (absent: `getattr` default `0`) -/
  NSig : Option PyVal
  /-- attribute `DF395`, the signal bitmask (absent: default `None`) -/
  DF395 : Option PyVal
  /-- attribute `DF394`, the satellite bitmask (absent: default `None`) -/
  DF394 : Option PyVal
  /-- attribute `PRN_{i:02d}` (absent: `hasattr` is false) -/
  PRN : Nat → Option PyVal

/-- The PRN-field loop: `for i in range(1, nsat + 1)`, adding
`getattr(parsed, f"PRN_{i:02d}")` when it exists, is an int, and is
positive. -/
def prnLoop (p : Parsed) (n : Nat) : List Int :=
  (List.range' 1 n).foldl
    (fun s i =>
      match p.PRN i with
      | some (PyVal.vint k) => if 0 < k then addElem s k else s
      | _ => s)
    []

/-- The signal-mask loop: `for sig_id in range(1, 33)`. -/
def sigLoop (c : CName) (m : Int) : List String :=
  (List.range' 1 32).foldl
    (fun s sid => if pyBitSet m (sid - 1) then addElem s (signalName c sid) else s)
    []

/-- The DF394 fallback loop: `for prn in range(1, 65)`. -/
def maskLoop (m : Int) : List Int :=
  (List.range' 1 64).foldl
    (fun s prn => if pyBitSet m (prn - 1) then addElem s (Int.ofNat prn) else s)
    []

/-- The message identity as `int(str(getattr(parsed, "identity", "")))`;
`none` models the caught `ValueError`. -/
def identityNum (p : Parsed) : Option Int :=
  pyIntParse (pyStr (p.identity.getD (PyVal.vstr "")))

/-- Shallow embedding of `extract_satellite_info` (v5_2 lines 42–127).
The result is the `(satellites, signals)` pair of six-key dicts; an
`Except.error` is an uncaught `TypeError` (only `ValueError` and
`AttributeError` are caught by the source's `try`).  Note `nsat > 0` and
`nsig > 0` raise `TypeError` when the attribute holds a non-int, and the
source's `constellation in signal_map` test is always true since
`signal_map` has all six keys. -/
def extract_satellite_info (p : Parsed) :
    Except PyErr (ConstMap (List Int) × ConstMap (List String)) :=
  match identityNum p with
  | none => Except.ok (emptySats, emptySigs)
  | some msgNum =>
    if 1071 ≤ msgNum ∧ msgNum ≤ 1127 then
      match constellationMap ((msgNum - 1071).toNat / 10) with
      | none => Except.ok (emptySats, emptySigs)
      | some c =>
        match pyGtZero (p.NSat.getD (PyVal.vint 0)) with
        | Except.error e => Except.error e
        | Except.ok nsatPos =>
          let sats1 : List Int :=
            if nsatPos then prnLoop p (pyIntVal (p.NSat.getD (PyVal.vint 0))).toNat
            else []
          match pyGtZero (p.NSig.getD (PyVal.vint 0)) with
          | Except.error e => Except.error e
          | Except.ok nsigPos =>
            let sigs : List String :=
              if nsigPos then
                match p.DF395.getD PyVal.vnone with
                | PyVal.vint m => if m ≠ 0 then sigLoop c m else []
                | _ => []
              else []
            let sats : List Int :=
              if sats1 = [] then
                match p.DF394.getD PyVal.vnone with
                | PyVal.vint m => if 0 < m then maskLoop m else []
                | _ => []
              else sats1
            Except.ok (emptySats.set c sats, emptySigs.set c sigs)
    else Except.ok (emptySats, emptySigs)

/-! ## Supervisor-level caster bookkeeping (`NTRIPCheckerPro`)

The stat-relevant state of the main widget: `self.clients`,
`self.rtcm_stats`, `self.satellite_stats`, `self.signal_stats`, all keyed
by caster name.  Per-caster message counts are an insertion-ordered
association list, like a Python dict. -/

/-- The per-client fields a restart resets (`NTRIPClient.__init__`). -/
structure ClientInfo where
  /-- `client.running` -/
  running : Bool
  /-- `client.total_bytes` -/
  totalBytes : Nat
  /-- `client.buffer` -/
  buffer : Bytes
deriving DecidableEq

/-- A freshly constructed `NTRIPClient`. -/
def freshClient : ClientInfo := ⟨false, 0, []⟩

/-- One caster's `rtcm_stats` entry: message identity to count (the
`last` timestamp is omitted), insertion ordered. -/
abbrev MsgStats := List (String × Nat)

/-- Increment (or create at 0 and increment) one identity's count. -/
def msBump (m : MsgStats) (id : String) : MsgStats :=
  if m.any (fun e => e.1 = id) then
    m.map (fun e => if e.1 = id then (e.1, e.2 + 1) else e)
  else m ++ [(id, 1)]

/-- The stat-relevant state of `NTRIPCheckerPro`. -/
structure AppState where
  /-- `self.clients` -/
  clients : String → Option ClientInfo
  /-- `self.rtcm_stats` -/
  rtcm : String → Option MsgStats
  /-- `self.satellite_stats` -/
  sat : String → Option (ConstMap (List Int))
  /-- `self.signal_stats` -/
  sig : String → Option (ConstMap (List String))

/-- Dict update at one key. -/
def setKey (m : String → Option β) (name : String) (v : β) : String → Option β :=
  fun k => if k = name then some v else m k

/-- Dict `pop(name, None)`. -/
def popKey (m : String → Option β) (name : String) : String → Option β :=
  fun k => if k = name then none else m k

/-- `start_connection(caster)`: a no-op when a running client exists under
the name, else install and start a fresh `NTRIPClient`.  Stats maps are
untouched. -/
def startConnection (name : String) (st : AppState) : AppState :=
  match st.clients name with
  | some ci =>
    if ci.running then st
    else { st with clients := setKey st.clients name freshClient }
  | none => { st with clients := setKey st.clients name freshClient }

/-- `remove_caster_by_name(name)` (confirmed path): stops the client and
pops it from `self.clients`; the source touches none of `rtcm_stats`,
`satellite_stats`, `signal_stats`. -/
def removeCasterByName (name : String) (st : AppState) : AppState :=
  { st with clients := popKey st.clients name }

/-- `show_edit_dialog(old_name)` (accepted dialog, valid fields, renaming
to `newName`): when a client entry exists under the old name, the source
pops `clients[old]` and `rtcm_stats[old]` and starts a fresh client under
the new name; `satellite_stats` and `signal_stats` are not popped.  With
no client entry, stats are untouched and nothing restarts. -/
def showEditDialog (oldName newName : String) (st : AppState) : AppState :=
  match st.clients oldName with
  | none => st
  | some _ =>
    let st := { st with clients := popKey st.clients oldName,
                        rtcm := popKey st.rtcm oldName }
    startConnection newName st

/-- Pointwise union of two satellite dicts (`update` on each set). -/
def unionSats (a b : ConstMap (List Int)) : ConstMap (List Int) :=
  ⟨listUnion a.gps b.gps, listUnion a.glonass b.glonass,
   listUnion a.galileo b.galileo, listUnion a.beidou b.beidou,
   listUnion a.qzss b.qzss, listUnion a.sbas b.sbas⟩

/-- Pointwise union of two signal dicts. -/
def unionSigs (a b : ConstMap (List String)) : ConstMap (List String) :=
  ⟨listUnion a.gps b.gps, listUnion a.glonass b.glonass,
   listUnion a.galileo b.galileo, listUnion a.beidou b.beidou,
   listUnion a.qzss b.qzss, listUnion a.sbas b.sbas⟩

/-- The per-frame stat merge of `on_data` (v5_2 lines 1937–1967): bump the
message count, then initialise the caster's satellite/signal entries if
absent and union-merge the extracted sets into them.  (The source guards
each `update` with a non-emptiness test; updating with an empty set is the
same union.) -/
def mergeFrame (name : String) (id : String) (si : ConstMap (List Int))
    (gi : ConstMap (List String)) (st : AppState) : AppState :=
  let r := (st.rtcm name).getD []
  let s := (st.sat name).getD emptySats
  let g := (st.sig name).getD emptySigs
  { st with rtcm := setKey st.rtcm name (msBump r id),
            sat := setKey st.sat name (unionSats s si),
            sig := setKey st.sig name (unionSigs g gi) }

/-! ## Helper lemmas about the run-loop model -/

/-- `applyStop none` changes nothing. -/
theorem applyStop_none_eq (st : CState) : applyStop none st = st := rfl

/-- The read loop in closed form: `N` successful reads add the chunk
lengths to `total_bytes`, append the chunks to the buffer in order, and
emit one `data_signal` each. -/
theorem foldl_readChunk (chunks : List Bytes) (st : CState) :
    chunks.foldl readChunk st =
      { st with totalBytes := st.totalBytes + (chunks.map List.length).sum,
                buffer := st.buffer ++ chunks.flatten,
                trace := st.trace ++ chunks.map (fun _ => Ev.dataAvail) } := by
  induction chunks generalizing st with
  | nil => simp
  | cons c cs ih =>
    simp [List.foldl_cons, readChunk, ih, Nat.add_assoc]

/-- The common `except` tail appends to the trace, starting with the "⚠️"
classification of the error. -/
theorem handleExcCommon_trace (msg : String) (st : CState) (w : Option Bool) :
    ∃ t, (handleExcCommon msg st w).trace =
      st.trace ++ Ev.warn (classifyError msg) :: t := by
  unfold handleExcCommon applyStop
  dsimp only
  split
  · split
    · exact ⟨[Ev.reconnecting (st.ra + 1)], by cases w <;> simp⟩
    · exact ⟨[Ev.reconnecting (st.ra + 1)], by cases w <;> simp⟩
  · split
    · exact ⟨[], by simp⟩
    · exact ⟨[Ev.disconnectedMsg (classifyError msg)], by simp⟩

/-- The v5_2 `except` clause only appends to the trace. -/
theorem exceptV52_trace (msg : String) (st : CState) (w : Option Bool) :
    ∃ t, (exceptV52 msg st w).trace = st.trace ++ t := by
  unfold exceptV52
  split
  · exact ⟨[], by simp⟩
  · split
    · exact ⟨[], by simp⟩
    · obtain ⟨t, ht⟩ := handleExcCommon_trace msg st w
      exact ⟨Ev.warn (classifyError msg) :: t, ht⟩

/-- The v5_2 `except` clause preserves the first trace entry. -/
theorem exceptV52_head (msg : String) (st : CState) (w : Option Bool) (e : Ev)
    (h : st.trace.head? = some e) :
    (exceptV52 msg st w).trace.head? = some e := by
  obtain ⟨t, ht⟩ := exceptV52_trace msg st w
  rw [ht]
  cases hl : st.trace with
  | nil => rw [hl] at h; simp at h
  | cons a l => rw [hl] at h; simpa using h

/-- A connect-phase failure with no concurrent stop request. -/
def failAtt (m : String) : Att := ⟨Outcome.connErr m, none, none⟩

/-! ## C1: bounded reconnection after consecutive connect failures -/

/-- C1 counterexample: after exactly 3 consecutive connect failures with no
stop request, the connection has NOT reached the terminal Disconnected
state: `run`'s retry loop is still live (`done = false`), the trace holds
the three "Reconnecting (k/3)..." events but no disconnected status, and a
4th connection attempt is still made (and can succeed, emitting
"✅ Connection OK").  This refutes the claim that 3 consecutive failures
reach Disconnected: the loop admits the initial attempt plus 3 retries,
so only a 4th consecutive failure is terminal. -/
theorem c1_three_failures_not_terminal_cex :
    (runV52 [failAtt "timed out", failAtt "timed out", failAtt "timed out"]).done = false ∧
    (runV52 [failAtt "timed out", failAtt "timed out", failAtt "timed out"]).trace =
      [Ev.warn "Connection timeout", Ev.reconnecting 1,
       Ev.warn "Connection timeout", Ev.reconnecting 2,
       Ev.warn "Connection timeout", Ev.reconnecting 3] ∧
    Ev.ok ∈ (runV52 [failAtt "timed out", failAtt "timed out", failAtt "timed out",
      ⟨Outcome.handshake (strBytes "ICY 200 OK") [] StreamEnd.stopExit, none, none⟩]).trace := by
  decide

/-- C1 (amended): in a run with no stop request in which the connection
attempts fail consecutively, it takes 4 consecutive failures — the initial
attempt plus the 3 retries, each retry preceded by the interruptible
`stop_event.wait(10)` backoff — to reach the terminal Disconnected state,
and such a run emits exactly the 3 "Reconnecting (k/3)..." events
(k = 1, 2, 3), each after a "⚠️" classification of the failure, followed by
the final "🔴 Disconnected (…)" status and the `disconnect_signal`. -/
theorem c1_four_failures_terminal (m1 m2 m3 m4 : String)
    (h1 : isShutdownText m1 = false) (h2 : isShutdownText m2 = false)
    (h3 : isShutdownText m3 = false) (h4 : isShutdownText m4 = false) :
    (runV52 [failAtt m1, failAtt m2, failAtt m3, failAtt m4]).done = true ∧
    finalTrace (runV52 [failAtt m1, failAtt m2, failAtt m3, failAtt m4]) =
      [Ev.warn (classifyError m1), Ev.reconnecting 1,
       Ev.warn (classifyError m2), Ev.reconnecting 2,
       Ev.warn (classifyError m3), Ev.reconnecting 3,
       Ev.warn (classifyError m4), Ev.disconnectedMsg (classifyError m4),
       Ev.disconnectSig] := by
  simp [runV52, runScript, procAtt, exceptV52, h1, h2, h3, h4,
    handleExcCommon, applyStop, finalTrace, initCState, failAtt]

/-! ## C5: handshake acceptance and rejection classification -/

/-- The rejection exception text is classified as an authentication
failure (it contains "rejected"). -/
theorem rejection_classified :
    classifyError "NTRIP server rejected connection" = "Authentication failed" := by
  decide

/-- The rejection exception text matches no shutdown pattern. -/
theorem rejection_not_shutdown :
    isShutdownText "NTRIP server rejected connection" = false := by
  decide

/-- C5: the handshake accepts a server response exactly when the first
header read contains one of the two recognized 200-OK byte markers — on an
accepted header the run's first emitted event is "✅ Connection OK", on any
other header it is not; acceptance is by definition containment of
`b"ICY 200 OK"` or `b"200 OK"`; the header `b"ICY 200 OK"` is accepted;
the header `b"401 Unauthorized"` contains neither marker, is rejected, and
the resulting failure is classified "Authentication failed" (the first
emitted event is the "⚠️ Authentication failed" status). -/
theorem c5_handshake_acceptance :
    (∀ (header : Bytes) (chunks : List Bytes) (ending : StreamEnd),
      (runV52 [⟨Outcome.handshake header chunks ending, none, none⟩]).trace.head?
          = some Ev.ok
        ↔ headerAccepted header = true) ∧
    (∀ header : Bytes,
      headerAccepted header =
        (listContains (strBytes "ICY 200 OK") header ||
         listContains (strBytes "200 OK") header)) ∧
    headerAccepted (strBytes "ICY 200 OK") = true ∧
    headerAccepted (strBytes "401 Unauthorized") = false ∧
    (runV52 [⟨Outcome.handshake (strBytes "401 Unauthorized") [] StreamEnd.closed,
        none, none⟩]).trace.head? = some (Ev.warn "Authentication failed") := by
  refine ⟨?_, fun _ => rfl, by decide, by decide, by decide⟩
  intro header chunks ending
  show (procAtt exceptV52 initCState ⟨Outcome.handshake header chunks ending, none, none⟩).trace.head?
      = some Ev.ok ↔ headerAccepted header = true
  by_cases hacc : headerAccepted header = true
  · refine iff_of_true ?_ hacc
    cases ending with
    | stopExit =>
      simp [procAtt, initCState, hacc, foldl_readChunk, applyStop]
    | readErr msg =>
      simp [procAtt, initCState, hacc, foldl_readChunk, applyStop]
      exact exceptV52_head _ _ _ _ (by simp)
    | closed =>
      simp [procAtt, initCState, hacc, foldl_readChunk, applyStop]
      exact exceptV52_head _ _ _ _ (by simp)
  · rw [Bool.not_eq_true] at hacc
    refine iff_of_false ?_ (by simp [hacc])
    simp only [procAtt, initCState, hacc, applyStop]
    have hrej : (exceptV52 "NTRIP server rejected connection"
        (⟨0, false, false, 0, [], [], false⟩ : CState) none).trace.head?
        = some (Ev.warn "Authentication failed") := by decide
    simp_all

/-- C1 witness: the amended theorem applied to four concrete timeout
failures. -/
theorem c1_four_failures_terminal_witness :
    (runV52 [failAtt "timed out", failAtt "timed out", failAtt "timed out",
      failAtt "timed out"]).done = true ∧
    finalTrace (runV52 [failAtt "timed out", failAtt "timed out", failAtt "timed out",
      failAtt "timed out"]) =
      [Ev.warn "Connection timeout", Ev.reconnecting 1,
       Ev.warn "Connection timeout", Ev.reconnecting 2,
       Ev.warn "Connection timeout", Ev.reconnecting 3,
       Ev.warn "Connection timeout", Ev.disconnectedMsg "Connection timeout",
       Ev.disconnectSig] := by
  have h := c1_four_failures_terminal "timed out" "timed out" "timed out" "timed out"
    (by decide) (by decide) (by decide) (by decide)
  simpa [show classifyError "timed out" = "Connection timeout" from by decide] using h

/-! ## C7: suppression of errors caused by a local stop -/

/-- C7 counterexample: in v5_0, a read error raised after a local
`stop(user_initiated=False)` — exactly the call made by
`remove_caster_by_name`, `show_edit_dialog` and `cleanup` — is NOT
suppressed: the run emits the error-type status "⚠️ Network error" (and a
"🟡 Reconnecting (1/3)..." status), refuting the claim for
`ntrip_checker_pro_v5_0.py`.  (The error text is what `recv` on a closed
socket raises on Linux.) -/
theorem c7_v50_nonuser_stop_reported_cex :
    (runV50 [⟨Outcome.handshake (strBytes "ICY 200 OK") [[1, 2, 3]]
        (StreamEnd.readErr "[Errno 9] Bad file descriptor"), some false, none⟩]).trace =
      [Ev.ok, Ev.dataAvail, Ev.warn "Network error", Ev.reconnecting 1] ∧
    Ev.warn "Network error" ∈
      (runV50 [⟨Outcome.handshake (strBytes "ICY 200 OK") [[1, 2, 3]]
        (StreamEnd.readErr "[Errno 9] Bad file descriptor"), some false, none⟩]).trace := by
  decide

/-- C7 (amended): in v5_2, a socket error raised after a local `stop()` is
suppressed regardless of whether the stop was user-initiated (via the
`user_stopped` check and the `stop_event.is_set()` disjunct of
`is_shutdown_error`): the run of an accepted connection whose read loop
ends with such an error emits only "✅ Connection OK" and the data
notifications — no error-type status.  In v5_0 the same suppression holds
only when the stop was user-initiated. -/
theorem c7_v52_stop_suppressed (u : Bool) (msg : String) (header : Bytes)
    (chunks : List Bytes) (hacc : headerAccepted header = true) :
    (runV52 [⟨Outcome.handshake header chunks (StreamEnd.readErr msg),
        some u, none⟩]).trace =
      Ev.ok :: chunks.map (fun _ => Ev.dataAvail) ∧
    (u = true →
      (runV50 [⟨Outcome.handshake header chunks (StreamEnd.readErr msg),
          some u, none⟩]).trace =
        Ev.ok :: chunks.map (fun _ => Ev.dataAvail)) := by
  cases u with
  | true =>
    constructor
    · simp [runV52, runScript, procAtt, initCState, hacc, foldl_readChunk, applyStop]
    · intro
      simp [runV50, runScript, procAtt, initCState, hacc, foldl_readChunk, applyStop]
  | false =>
    refine ⟨?_, by simp⟩
    simp [runV52, runScript, procAtt, initCState, hacc, foldl_readChunk, applyStop,
      exceptV52]

/-- C7 witness: the amended theorem at a concrete non-user stop. -/
theorem c7_v52_stop_suppressed_witness :
    (runV52 [⟨Outcome.handshake (strBytes "ICY 200 OK") [[7]]
        (StreamEnd.readErr "connection reset by peer"), some false, none⟩]).trace =
      [Ev.ok, Ev.dataAvail] := by
  have h := c7_v52_stop_suppressed false "connection reset by peer"
    (strBytes "ICY 200 OK") [[7]] (by decide)
  simpa using h.1

/-! ## C8: byte accounting of the read loop -/

/-- The common `except` tail never touches `total_bytes`. -/
theorem handleExcCommon_totalBytes (msg : String) (st : CState) (w : Option Bool) :
    (handleExcCommon msg st w).totalBytes = st.totalBytes := by
  unfold handleExcCommon applyStop
  dsimp only
  split
  · cases w with
    | none => dsimp only; split <;> rfl
    | some u => simp
  · split <;> rfl

/-- The common `except` tail never touches the buffer. -/
theorem handleExcCommon_buffer (msg : String) (st : CState) (w : Option Bool) :
    (handleExcCommon msg st w).buffer = st.buffer := by
  unfold handleExcCommon applyStop
  dsimp only
  split
  · cases w with
    | none => dsimp only; split <;> rfl
    | some u => simp
  · split <;> rfl

/-- The v5_2 `except` clause never touches `total_bytes`. -/
theorem exceptV52_totalBytes (msg : String) (st : CState) (w : Option Bool) :
    (exceptV52 msg st w).totalBytes = st.totalBytes := by
  unfold exceptV52
  split
  · rfl
  · split
    · rfl
    · exact handleExcCommon_totalBytes msg st w

/-- The v5_2 `except` clause never touches the buffer. -/
theorem exceptV52_buffer (msg : String) (st : CState) (w : Option Bool) :
    (exceptV52 msg st w).buffer = st.buffer := by
  unfold exceptV52
  split
  · rfl
  · split
    · rfl
    · exact handleExcCommon_buffer msg st w

/-- `total_bytes` never decreases across one attempt of the retry loop. -/
theorem procAtt_totalBytes_le (st : CState) (a : Att) :
    st.totalBytes ≤ (procAtt exceptV52 st a).totalBytes := by
  obtain ⟨o, sb, sw⟩ := a
  unfold procAtt
  dsimp only
  split
  · exact Nat.le_refl _
  · split
    · exact Nat.le_refl _
    · cases o with
      | connErr msg =>
        rw [exceptV52_totalBytes]
        cases sb <;> exact Nat.le_refl _
      | handshake header chunks ending =>
        dsimp only
        split
        · cases ending with
          | stopExit => cases sb <;> simp [foldl_readChunk, applyStop]
          | readErr msg =>
            dsimp only
            split
            · cases sb <;> simp [foldl_readChunk, applyStop]
            · rw [exceptV52_totalBytes]
              cases sb <;> simp [foldl_readChunk, applyStop]
          | closed =>
            dsimp only
            split
            · cases sb <;> simp [foldl_readChunk, applyStop]
            · rw [exceptV52_totalBytes]
              cases sb <;> simp [foldl_readChunk, applyStop]
        · rw [exceptV52_totalBytes]
          cases sb <;> exact Nat.le_refl _

/-- C8: after an accepted handshake and `N` successful reads of chunks
`b1..bN` (before the GUI-side decoder consumes anything — the client never
trims its own buffer), `total_bytes` equals the sum of the chunk lengths
and the pending buffer is the concatenation `b1 ++ ... ++ bN` in read
order, whatever ends the read loop; and `total_bytes` is monotonically
non-decreasing over the whole lifetime of the client instance (across
every attempt of the retry loop). -/
theorem c8_byte_accounting :
    (∀ (header : Bytes) (chunks : List Bytes) (ending : StreamEnd),
      headerAccepted header = true →
      (runV52 [⟨Outcome.handshake header chunks ending, none, none⟩]).totalBytes
          = (chunks.map List.length).sum ∧
      (runV52 [⟨Outcome.handshake header chunks ending, none, none⟩]).buffer
          = chunks.flatten) ∧
    (∀ (st : CState) (a : Att), st.totalBytes ≤ (procAtt exceptV52 st a).totalBytes) ∧
    (∀ (script : List Att) (st : CState),
      st.totalBytes ≤ (script.foldl (procAtt exceptV52) st).totalBytes) := by
  refine ⟨?_, procAtt_totalBytes_le, ?_⟩
  · intro header chunks ending hacc
    cases ending with
    | stopExit =>
      simp [runV52, runScript, procAtt, initCState, hacc, foldl_readChunk, applyStop]
    | readErr msg =>
      simp [runV52, runScript, procAtt, initCState, hacc, foldl_readChunk, applyStop,
        exceptV52_totalBytes, exceptV52_buffer]
    | closed =>
      simp [runV52, runScript, procAtt, initCState, hacc, foldl_readChunk, applyStop,
        exceptV52_totalBytes, exceptV52_buffer]
  · intro script
    induction script with
    | nil => exact fun st => Nat.le_refl _
    | cons a s ih =>
      exact fun st => Nat.le_trans (procAtt_totalBytes_le st a) (ih _)

/-- C8 witness: the byte-accounting theorem at a concrete two-read run. -/
theorem c8_byte_accounting_witness :
    (runV52 [⟨Outcome.handshake (strBytes "ICY 200 OK") [[1, 2, 3], [4, 5]]
        StreamEnd.closed, none, none⟩]).totalBytes = 5 ∧
    (runV52 [⟨Outcome.handshake (strBytes "ICY 200 OK") [[1, 2, 3], [4, 5]]
        StreamEnd.closed, none, none⟩]).buffer = [1, 2, 3, 4, 5] := by
  have h := c8_byte_accounting.1 (strBytes "ICY 200 OK") [[1, 2, 3], [4, 5]]
    StreamEnd.closed (by decide)
  simpa using h

/-! ## C9: observational comparison of the v5_0 and v5_2 run loops -/

/-- C9 counterexample: the two versions of `NTRIPClient.run` are not
observationally equivalent.  On identical socket behaviour and identical
`stop()` invocations — an accepted connection, one read, then a
`stop(user_initiated=False)` followed by the read error it provokes —
v5_0 emits "⚠️ Network error" and "🟡 Reconnecting (1/3)..." while v5_2
suppresses the error, so the final states (and traces) differ. -/
theorem c9_not_equivalent_cex :
    runV50 [⟨Outcome.handshake (strBytes "ICY 200 OK") [[9]]
        (StreamEnd.readErr "[Errno 9] Bad file descriptor"), some false, none⟩] ≠
    runV52 [⟨Outcome.handshake (strBytes "ICY 200 OK") [[9]]
        (StreamEnd.readErr "[Errno 9] Bad file descriptor"), some false, none⟩] := by
  decide

/-- An attempt is benign when no stop request is interleaved with it and
no raised error text matches v5_2's shutdown patterns. -/
def attBenign (a : Att) : Bool :=
  a.stopBeforeEnd.isNone && a.stopDuringWait.isNone &&
  (match a.outcome with
   | Outcome.connErr msg => !isShutdownText msg
   | Outcome.handshake _ _ (StreamEnd.readErr msg) => !isShutdownText msg
   | Outcome.handshake _ _ _ => true)

/-- The common `except` tail preserves the stop-event flag when no stop
arrives during the backoff wait. -/
theorem handleExcCommon_se (msg : String) (st : CState) :
    (handleExcCommon msg st none).se = st.se := by
  unfold handleExcCommon applyStop
  dsimp only
  split
  · split <;> rfl
  · split <;> rfl

/-- The common `except` tail preserves the user-stopped flag when no stop
arrives during the backoff wait. -/
theorem handleExcCommon_us (msg : String) (st : CState) :
    (handleExcCommon msg st none).us = st.us := by
  unfold handleExcCommon applyStop
  dsimp only
  split
  · split <;> rfl
  · split <;> rfl

/-- With no concurrent stop, both versions' `except` clauses agree when
the error text matches no shutdown pattern. -/
theorem except_eq_of_benign (msg : String) (st : CState)
    (hse : st.se = false) (hus : st.us = false)
    (hmsg : isShutdownText msg = false) :
    exceptV50 msg st none = exceptV52 msg st none := by
  simp [exceptV50, exceptV52, hse, hus, hmsg]

/-- The v5_2 `except` clause preserves the stop flags when no stop arrives
during the backoff wait. -/
theorem exceptV52_se_us (msg : String) (st : CState) :
    (exceptV52 msg st none).se = st.se ∧ (exceptV52 msg st none).us = st.us := by
  unfold exceptV52
  split
  · exact ⟨rfl, rfl⟩
  · split
    · exact ⟨rfl, rfl⟩
    · exact ⟨handleExcCommon_se msg st, handleExcCommon_us msg st⟩

/-- The "connection closed by server" text matches no shutdown pattern. -/
theorem closed_not_shutdown :
    isShutdownText "Connection closed by server" = false := by
  decide

/-- On a benign attempt from a state with no pending stop, the two
versions take the same step, and the result again has no pending stop. -/
theorem procAtt_benign_eq (st : CState) (a : Att)
    (hse : st.se = false) (hus : st.us = false) (hb : attBenign a = true) :
    procAtt exceptV50 st a = procAtt exceptV52 st a ∧
    (procAtt exceptV52 st a).se = false ∧ (procAtt exceptV52 st a).us = false := by
  obtain ⟨o, sb, sw⟩ := a
  simp only [attBenign, Bool.and_eq_true, Option.isNone_iff_eq_none] at hb
  obtain ⟨⟨hsb, hsw⟩, ho⟩ := hb
  subst hsb
  subst hsw
  unfold procAtt
  dsimp only
  split
  · exact ⟨rfl, hse, hus⟩
  · split
    · exact ⟨rfl, hse, hus⟩
    · cases o with
      | connErr msg =>
        have hmsg : isShutdownText msg = false := by
          simpa using ho
        refine ⟨except_eq_of_benign msg st hse hus hmsg, ?_, ?_⟩
        · exact (exceptV52_se_us msg st).1.trans hse
        · exact (exceptV52_se_us msg st).2.trans hus
      | handshake header chunks ending =>
        dsimp only
        split
        · rw [foldl_readChunk]
          cases ending with
          | stopExit => exact ⟨rfl, hse, hus⟩
          | readErr msg =>
            have hmsg : isShutdownText msg = false := by
              simpa using ho
            dsimp only
            rw [applyStop_none_eq]
            split
            · exact ⟨rfl, hse, hus⟩
            · refine ⟨except_eq_of_benign msg _ hse hus hmsg, ?_, ?_⟩
              · exact (exceptV52_se_us msg _).1.trans hse
              · exact (exceptV52_se_us msg _).2.trans hus
          | closed =>
            dsimp only
            rw [applyStop_none_eq]
            split
            · exact ⟨rfl, hse, hus⟩
            · refine ⟨except_eq_of_benign _ _ hse hus closed_not_shutdown, ?_, ?_⟩
              · exact (exceptV52_se_us _ _).1.trans hse
              · exact (exceptV52_se_us _ _).2.trans hus
        · refine ⟨except_eq_of_benign _ _ hse hus rejection_not_shutdown, ?_, ?_⟩
          · exact (exceptV52_se_us _ _).1.trans hse
          · exact (exceptV52_se_us _ _).2.trans hus

/-- C9 (amended): the two versions of `NTRIPClient.run` are observationally
equivalent — same status/data/disconnect event sequence and same final
client state — on every run in which no stop request is interleaved with
an attempt and no raised error text matches v5_2's shutdown patterns
("winerror 10038", "bad file descriptor", "not a socket"); they are NOT
equivalent in general (see the counterexample: a non-user stop before a
read error is reported by v5_0 and suppressed by v5_2). -/
theorem c9_equivalent_on_benign_runs (script : List Att)
    (hb : ∀ a ∈ script, attBenign a = true) :
    runV50 script = runV52 script := by
  have H : ∀ (s : List Att) (st : CState), st.se = false → st.us = false →
      (∀ a ∈ s, attBenign a = true) →
      s.foldl (procAtt exceptV50) st = s.foldl (procAtt exceptV52) st := by
    intro s
    induction s with
    | nil => intro st _ _ _; rfl
    | cons a t ih =>
      intro st hse hus hbs
      obtain ⟨heq, hse', hus'⟩ :=
        procAtt_benign_eq st a hse hus (hbs a (List.mem_cons_self a t))
      rw [List.foldl_cons, List.foldl_cons, heq]
      exact ih _ hse' hus' (fun x hx => hbs x (List.mem_cons_of_mem a hx))
  exact H script initCState rfl rfl hb

/-- C9 witness: the equivalence theorem on a concrete benign script of a
connect failure followed by an accepted connection whose stream closes. -/
theorem c9_equivalent_on_benign_runs_witness :
    runV50 [⟨Outcome.connErr "timed out", none, none⟩,
      ⟨Outcome.handshake (strBytes "ICY 200 OK") [[1]] StreamEnd.closed, none, none⟩] =
    runV52 [⟨Outcome.connErr "timed out", none, none⟩,
      ⟨Outcome.handshake (strBytes "ICY 200 OK") [[1]] StreamEnd.closed, none, none⟩] := by
  apply c9_equivalent_on_benign_runs
  intro a ha
  fin_cases ha <;> decide

/-! ## C3: snapshot-then-trim buffer accounting -/

/-- The buffer/bookkeeping invariant of the `on_data` model: the pending
buffer is exactly all bytes ever appended minus the consumed prefix. -/
def ginv (st : GState) : Prop :=
  st.buffer = st.appended.drop st.consumed ∧ st.consumed ≤ st.appended.length

/-- One step preserves the buffer invariant, for any decoder that never
claims to have consumed more than its snapshot (as `BytesIO.tell()`
guarantees). -/
theorem gstep_inv (dec : Decoder) (hdec : ∀ b, (dec b).consumed ≤ b.length)
    (st : GState) (ev : GEv) (h : ginv st) : ginv (gstep dec st ev) := by
  obtain ⟨hb, hc⟩ := h
  cases ev with
  | recvChunk c =>
    refine ⟨?_, ?_⟩
    · simp only [gstep]
      rw [List.drop_append_of_le_length hc, hb]
    · simp only [gstep, List.length_append]
      exact Nat.le_trans hc (Nat.le_add_right _ _)
  | decodePass mid =>
    by_cases hemp : st.buffer.isEmpty
    · simp only [gstep, hemp, if_true]
      refine ⟨?_, ?_⟩
      · rw [List.drop_append_of_le_length hc, hb]
      · simp only [List.length_append]
        exact Nat.le_trans hc (Nat.le_add_right _ _)
    · simp only [gstep, hemp, if_false, Bool.false_eq_true]
      by_cases herr : (dec st.buffer).errored
      · simp only [herr, if_true]
        refine ⟨?_, ?_⟩
        · rw [List.drop_append_of_le_length hc, hb]
        · simp only [List.length_append]
          exact Nat.le_trans hc (Nat.le_add_right _ _)
      · simp only [herr, if_false, Bool.false_eq_true]
        have hcons : (dec st.buffer).consumed ≤ st.buffer.length := hdec st.buffer
        have hlen : st.consumed + (dec st.buffer).consumed ≤ st.appended.length := by
          have : st.buffer.length = st.appended.length - st.consumed := by
            rw [hb, List.length_drop]
          omega
        refine ⟨?_, ?_⟩
        · rw [List.drop_append_of_le_length hcons,
            List.drop_append_of_le_length hlen, hb, List.drop_drop,
            Nat.add_comm]
        · simp only [List.length_append]
          exact Nat.le_trans hlen (Nat.le_add_right _ _)

/-- C3: in the `on_data` model the decode pass snapshots the buffer, and
the trim afterwards is a length-based removal of the first `consumed`
bytes of the then-current buffer.  Consequently (i) over every interleaving
of network-thread appends and decode passes, the pending buffer equals all
bytes ever appended minus the consumed prefix, and (ii) a single decode
pass always leaves the bytes appended between the snapshot and the trim at
the end of the buffer: the new buffer is the old one with some prefix of
at most the snapshot's length removed, followed intact by the concurrently
appended chunks. -/
theorem c3_snapshot_then_trim (dec : Decoder)
    (hdec : ∀ b, (dec b).consumed ≤ b.length) :
    (∀ evs : List GEv,
      (grun dec evs).buffer = (grun dec evs).appended.drop (grun dec evs).consumed) ∧
    (∀ (st : GState) (mid : List Bytes), ∃ k, k ≤ st.buffer.length ∧
      (gstep dec st (GEv.decodePass mid)).buffer = st.buffer.drop k ++ mid.flatten) := by
  constructor
  · intro evs
    have H : ∀ (l : List GEv) (st : GState), ginv st → ginv (l.foldl (gstep dec) st) := by
      intro l
      induction l with
      | nil => exact fun st h => h
      | cons e t ih => exact fun st h => ih _ (gstep_inv dec hdec st e h)
    exact (H evs initGState ⟨rfl, Nat.le_refl 0⟩).1
  · intro st mid
    by_cases hemp : st.buffer.isEmpty
    · exact ⟨0, Nat.zero_le _, by simp [gstep, hemp]⟩
    · by_cases herr : (dec st.buffer).errored
      · exact ⟨0, Nat.zero_le _, by simp [gstep, hemp, herr]⟩
      · refine ⟨(dec st.buffer).consumed, hdec st.buffer, ?_⟩
        simp only [gstep, hemp, if_false, herr, Bool.false_eq_true]
        exact List.drop_append_of_le_length (hdec st.buffer)

/-- A trivial always-succeeding decoder that consumes its whole snapshot
and reports one frame. -/
def decAll : Decoder := fun b => ⟨["1005"], b.length, false⟩

/-- C3 witness: the invariant theorem at a concrete decoder and trace
(one append of `[1, 2]`, then a decode pass during which `[3]` arrives). -/
theorem c3_snapshot_then_trim_witness :
    (grun decAll [GEv.recvChunk [1, 2], GEv.decodePass [[3]]]).buffer =
      (grun decAll [GEv.recvChunk [1, 2], GEv.decodePass [[3]]]).appended.drop
        (grun decAll [GEv.recvChunk [1, 2], GEv.decodePass [[3]]]).consumed :=
  (c3_snapshot_then_trim decAll (fun _ => Nat.le_refl _)).1
    [GEv.recvChunk [1, 2], GEv.decodePass [[3]]]

/-! ## C2: message-count accounting -/

/-- Occurrences of one identity in a list of identities. -/
def countId (l : List String) (key : String) : Nat :=
  (l.filter (fun i => i = key)).length

/-- `countId` of a cons. -/
theorem countId_cons (id : String) (l : List String) (key : String) :
    countId (id :: l) key = countId l key + (if id = key then 1 else 0) := by
  by_cases hk : id = key
  · simp [countId, List.filter_cons, hk]
  · simp [countId, List.filter_cons, hk]

/-- `countFrames` adds exactly the occurrences among the non-falsy
identities of the pass. -/
theorem countFrames_eq (frames : List String) (f : String → Nat) (key : String) :
    countFrames f frames key = f key + countId (frames.filter (fun i => i ≠ "")) key := by
  induction frames generalizing f with
  | nil => simp [countFrames, countId]
  | cons id rest ih =>
    have hcons : countFrames f (id :: rest) key
        = countFrames (if id = "" then f else bumpStat f id) rest key := rfl
    rw [hcons]
    by_cases hid : id = ""
    · rw [if_pos hid, ih f, List.filter_cons_of_neg (by simp [hid])]
    · rw [if_neg hid, ih (bumpStat f id), List.filter_cons_of_pos (by simp [hid]),
        countId_cons]
      by_cases hk : id = key
      · subst hk
        rw [show bumpStat f id id = f id + 1 from if_pos rfl, if_pos rfl]
        omega
      · rw [show bumpStat f id key = f key from if_neg (fun h => hk h.symm),
          if_neg hk]
        omega

/-- `countId` splits over appends. -/
theorem countId_append (l l' : List String) (key : String) :
    countId (l ++ l') key = countId l key + countId l' key := by
  simp [countId, List.filter_append]

/-- A decoder that yields one frame of identity "1074" from the snapshot
`[0xD3]` and then raises (e.g. a malformed second frame). -/
def cdec : Decoder := fun b =>
  if b = [211] then ⟨["1074"], 1, true⟩ else ⟨[], 0, false⟩

/-- C2 counterexample: a frame received once can be counted twice.  The
concrete decoder below yields one frame of identity "1074" from the
snapshot `[0xD3]` and then raises; `on_data` counts the frame but — the
`try` having jumped to `except` — skips the trim, so the next notification
re-decodes the same byte and counts the same frame again: after one
received frame the count is 2, refuting "each received frame is counted
exactly once, including when a decode pass terminates early with an
error". -/
theorem c2_error_pass_double_counts_cex :
    (cdec [211]).frames = ["1074"] ∧ (cdec [211]).errored = true ∧
    (grun cdec [GEv.recvChunk [211], GEv.decodePass [], GEv.decodePass []]).stats
      "1074" = 2 := by
  refine ⟨rfl, rfl, ?_⟩
  decide

/-- C2 (amended): for every caster and identity the count in `rtcm_stats`
never decreases across `on_data` calls, and after any sequence of calls it
equals the number of frames of that identity yielded across all decode
passes so far; each pass counts exactly its yielded frames once, but a
pass that terminates early with an error skips the buffer trim, so the
same unconsumed bytes are decoded again by later passes and the frames
before the error point are counted once more per such pass — exactly-once
counting of received frames holds only for error-free passes. -/
theorem c2_count_accounting :
    (∀ (dec : Decoder) (st : GState) (ev : GEv) (key : String),
      st.stats key ≤ (gstep dec st ev).stats key) ∧
    (∀ (dec : Decoder) (evs : List GEv) (key : String),
      (grun dec evs).stats key = countId (grun dec evs).yielded key) ∧
    (∀ (dec : Decoder) (st : GState) (mid : List Bytes),
      st.buffer.isEmpty = false → (dec st.buffer).errored = true →
      (gstep dec st (GEv.decodePass mid)).buffer = st.buffer ++ mid.flatten) := by
  refine ⟨?_, ?_, ?_⟩
  · intro dec st ev key
    cases ev with
    | recvChunk c => exact Nat.le_refl _
    | decodePass mid =>
      by_cases hemp : st.buffer.isEmpty
      · simp [gstep, hemp]
      · have hcf := countFrames_eq (dec st.buffer).frames st.stats key
        by_cases herr : (dec st.buffer).errored
        · simp only [gstep, hemp, if_false, herr, if_true, Bool.false_eq_true]
          rw [hcf]
          exact Nat.le_add_right _ _
        · simp only [gstep, hemp, if_false, herr, Bool.false_eq_true]
          rw [hcf]
          exact Nat.le_add_right _ _
  · intro dec evs key
    have H : ∀ (l : List GEv) (st : GState),
        st.stats key = countId st.yielded key →
        (l.foldl (gstep dec) st).stats key = countId (l.foldl (gstep dec) st).yielded key := by
      intro l
      induction l with
      | nil => exact fun st h => h
      | cons e t ih =>
        intro st h
        refine ih _ ?_
        cases e with
        | recvChunk c => exact h
        | decodePass mid =>
          by_cases hemp : st.buffer.isEmpty
          · simpa [gstep, hemp] using h
          · by_cases herr : (dec st.buffer).errored
            · simp only [gstep, hemp, if_false, herr, if_true, Bool.false_eq_true]
              rw [countFrames_eq, countId_append, h]
            · simp only [gstep, hemp, if_false, herr, Bool.false_eq_true]
              rw [countFrames_eq, countId_append, h]
    exact H evs initGState (by simp [initGState, countId])
  · intro dec st mid hemp herr
    simp [gstep, hemp, herr]

/-- C2 witness: the third conjunct of the accounting theorem at the
counterexample decoder — an errored pass leaves the buffer untrimmed. -/
theorem c2_count_accounting_witness :
    (gstep cdec ⟨[211], (fun _ => 0), [211], 0, []⟩ (GEv.decodePass [[4]])).buffer
      = [211, 4] := by
  have h := c2_count_accounting.2.2 cdec ⟨[211], (fun _ => 0), [211], 0, []⟩
    [[4]] rfl rfl
  simpa using h

/-! ## C6: lifecycle of per-caster statistics -/

/-- A concrete app state: one caster "A" with a running client, a message
count, and accumulated satellite/signal sets. -/
def stA : AppState :=
  { clients := fun k => if k = "A" then some ⟨true, 10, [1]⟩ else none,
    rtcm := fun k => if k = "A" then some [("1074", 5)] else none,
    sat := fun k => if k = "A" then some ⟨[4], [], [], [], [], []⟩ else none,
    sig := fun k => if k = "A" then some ⟨["L1 C/A"], [], [], [], [], []⟩ else none }

/-- C6 counterexample: removing a caster clears none of its accumulated
statistics — after `remove_caster_by_name("A")` the message counts and the
satellite/signal sets of "A" are all still present — and renaming it via
the edit dialog clears only the message counts: after
`show_edit_dialog("A")` renaming to "B", `satellite_stats["A"]` and
`signal_stats["A"]` survive.  This refutes "removing a caster or renaming
it via edit clears all of that caster's accumulated statistics". -/
theorem c6_stats_survive_remove_and_rename_cex :
    ((removeCasterByName "A" stA).rtcm "A" = some [("1074", 5)] ∧
     (removeCasterByName "A" stA).sat "A" = some ⟨[4], [], [], [], [], []⟩ ∧
     (removeCasterByName "A" stA).sig "A" = some ⟨["L1 C/A"], [], [], [], [], []⟩) ∧
    ((showEditDialog "A" "B" stA).sat "A" = some ⟨[4], [], [], [], [], []⟩ ∧
     (showEditDialog "A" "B" stA).sig "A" = some ⟨["L1 C/A"], [], [], [], [], []⟩) := by
  refine ⟨⟨rfl, rfl, rfl⟩, rfl, rfl⟩

/-- Membership survives a `set.add`. -/
theorem mem_addElem [DecidableEq α] (l : List α) (x k : α) (h : k ∈ l) :
    k ∈ addElem l x := by
  unfold addElem
  split
  · exact h
  · exact List.mem_append_left _ h

/-- Membership in the left operand survives a `set.update`. -/
theorem mem_listUnion_left [DecidableEq α] (a b : List α) (k : α) (h : k ∈ a) :
    k ∈ listUnion a b := by
  unfold listUnion
  induction b generalizing a with
  | nil => exact h
  | cons x t ih => exact ih (addElem a x) (mem_addElem a x k h)

/-- `unionSats` is the pointwise union. -/
theorem unionSats_get (a b : ConstMap (List Int)) (c : CName) :
    (unionSats a b).get c = listUnion (a.get c) (b.get c) := by
  cases c <;> rfl

/-- `unionSigs` is the pointwise union. -/
theorem unionSigs_get (a b : ConstMap (List String)) (c : CName) :
    (unionSigs a b).get c = listUnion (a.get c) (b.get c) := by
  cases c <;> rfl

/-- `start_connection` never touches the satellite stats. -/
theorem startConnection_sat (name : String) (st : AppState) :
    (startConnection name st).sat = st.sat := by
  unfold startConnection
  split
  · split <;> rfl
  · rfl

/-- `start_connection` never touches the signal stats. -/
theorem startConnection_sig (name : String) (st : AppState) :
    (startConnection name st).sig = st.sig := by
  unfold startConnection
  split
  · split <;> rfl
  · rfl

/-- `start_connection` never touches the message stats. -/
theorem startConnection_rtcm (name : String) (st : AppState) :
    (startConnection name st).rtcm = st.rtcm := by
  unfold startConnection
  split
  · split <;> rfl
  · rfl

/-- C6 (amended): per-caster satellite and signal sets only ever grow
under the `on_data` merge (pointwise union), but the lifecycle operations
do not clear them: removing a caster (`remove_caster_by_name`) pops only
the client entry and leaves all three stat maps (message counts,
satellite sets, signal sets) intact; renaming via the edit dialog pops the
caster's message counts but leaves its satellite and signal sets; and
restarting a stopped caster (`start_connection`) installs a fresh client
(not running, zero bytes, empty buffer) while the accumulated stats
persist. -/
theorem c6_stats_lifecycle :
    (∀ (st : AppState) (name id : String) (si : ConstMap (List Int))
        (gi : ConstMap (List String)) (m : String) (c : CName),
      (∀ k : Int, k ∈ ((st.sat m).getD emptySats).get c →
        k ∈ (((mergeFrame name id si gi st).sat m).getD emptySats).get c) ∧
      (∀ s : String, s ∈ ((st.sig m).getD emptySigs).get c →
        s ∈ (((mergeFrame name id si gi st).sig m).getD emptySigs).get c)) ∧
    (∀ (st : AppState) (n : String),
      (removeCasterByName n st).rtcm = st.rtcm ∧
      (removeCasterByName n st).sat = st.sat ∧
      (removeCasterByName n st).sig = st.sig ∧
      (removeCasterByName n st).clients n = none) ∧
    (∀ (st : AppState) (oldName newName : String),
      (st.clients oldName).isSome = true →
      (showEditDialog oldName newName st).rtcm oldName = none ∧
      (showEditDialog oldName newName st).sat = st.sat ∧
      (showEditDialog oldName newName st).sig = st.sig) ∧
    (∀ (st : AppState) (n : String),
      (st.clients n = none ∨ ∃ ci, st.clients n = some ci ∧ ci.running = false) →
      (startConnection n st).clients n = some freshClient ∧
      (startConnection n st).rtcm = st.rtcm ∧
      (startConnection n st).sat = st.sat ∧
      (startConnection n st).sig = st.sig) := by
  refine ⟨?_, ?_, ?_, ?_⟩
  · intro st name id si gi m c
    constructor
    · intro k hk
      unfold mergeFrame
      dsimp only [setKey]
      by_cases hm : m = name
      · subst hm
        rw [if_pos rfl, Option.getD_some, unionSats_get]
        exact mem_listUnion_left _ _ _ hk
      · simp only [if_neg hm]
        exact hk
    · intro s hs
      unfold mergeFrame
      dsimp only [setKey]
      by_cases hm : m = name
      · subst hm
        rw [if_pos rfl, Option.getD_some, unionSigs_get]
        exact mem_listUnion_left _ _ _ hs
      · simp only [if_neg hm]
        exact hs
  · intro st n
    exact ⟨rfl, rfl, rfl, by simp [removeCasterByName, popKey]⟩
  · intro st oldName newName hcl
    unfold showEditDialog
    cases hc : st.clients oldName with
    | none => rw [hc] at hcl; simp at hcl
    | some ci =>
      refine ⟨?_, ?_, ?_⟩
      · rw [startConnection_rtcm]
        simp [popKey]
      · rw [startConnection_sat]
      · rw [startConnection_sig]
  · intro st n h
    refine ⟨?_, startConnection_rtcm n st, startConnection_sat n st,
      startConnection_sig n st⟩
    unfold startConnection
    rcases h with h | ⟨ci, hci, hrun⟩
    · rw [h]
      simp [setKey]
    · rw [hci]
      simp [hrun, setKey]

/-- C6 witness: the lifecycle theorem applied at the concrete state
`stA` — renaming "A" to "B" provably leaves the satellite sets, and
restarting a stopped caster installs a fresh client. -/
theorem c6_stats_lifecycle_witness :
    (showEditDialog "A" "B" stA).sat = stA.sat ∧
    (startConnection "C" stA).clients "C" = some freshClient := by
  refine ⟨(c6_stats_lifecycle.2.2.1 stA "A" "B" rfl).2.1, ?_⟩
  exact (c6_stats_lifecycle.2.2.2 stA "C" (Or.inl rfl)).1

/-! ## C4: MSM constellation mapping and PRN extraction -/

/-- The constellation assignment as the claim words it: index
`(t − 1071) // 10` mapped 0→GPS, 1→GLONASS, 2→Galileo, 3→SBAS, 4→QZSS,
5→BeiDou. -/
def claimConstellation (t : Int) : CName :=
  match (t - 1071).toNat / 10 with
  | 0 => CName.gps
  | 1 => CName.glonass
  | 2 => CName.galileo
  | 3 => CName.sbas
  | 4 => CName.qzss
  | _ => CName.beidou

/-- A minimal MSM probe frame: integer identity `t`, no satellite count,
no PRN fields, satellite bitmask `0b1`. -/
def probe (t : Int) : Parsed :=
  ⟨some (PyVal.vint t), none, none, none, some (PyVal.vint 1), fun _ => none⟩

set_option maxRecDepth 8000 in
/-- The satellite sets extracted from the probe land in the claim's
constellation, for every MSM type code. -/
theorem probe_constellation_ball : ∀ k : Nat, k < 57 →
    extract_satellite_info (probe (1071 + (k : Int))) =
      Except.ok (emptySats.set (claimConstellation (1071 + (k : Int))) [1],
        emptySigs) := by
  decide

/-- C4: for every decoded frame whose identity is an integer `t` with
`1071 ≤ t ≤ 1127`, `extract_satellite_info` files the satellites under the
constellation of index `(t − 1071) // 10` mapped 0→GPS, 1→GLONASS,
2→Galileo, 3→SBAS, 4→QZSS, 5→BeiDou (shown on a probe frame whose DF394
bitmask holds satellite 1); it takes PRNs from the explicit
`PRN_01..PRN_NSat` fields when `NSat` is positive — ignoring `DF394`
whenever those fields yield a satellite — and falls back to the `DF394`
bitmask (bit i−1 set ⇒ PRN i) only when the PRN fields yield none; in
particular type 1074 with satellite count 3 and PRN fields 4, 9, 17 yields
GPS satellites {4, 9, 17} (also in the presence of a DF394 mask), and type
1084 with no PRN fields and bitmask 0b101 yields GLONASS satellites
{1, 3}. -/
theorem c4_msm_extraction :
    (∀ t : Int, 1071 ≤ t → t ≤ 1127 →
      extract_satellite_info (probe t) =
        Except.ok (emptySats.set (claimConstellation t) [1], emptySigs)) ∧
    extract_satellite_info
        ⟨some (PyVal.vint 1074), some (PyVal.vint 3), none, none, none,
         fun i => if i = 1 then some (PyVal.vint 4)
           else if i = 2 then some (PyVal.vint 9)
           else if i = 3 then some (PyVal.vint 17) else none⟩ =
      Except.ok (emptySats.set CName.gps [4, 9, 17], emptySigs) ∧
    extract_satellite_info
        ⟨some (PyVal.vint 1074), some (PyVal.vint 3), none, none,
         some (PyVal.vint 64),
         fun i => if i = 1 then some (PyVal.vint 4)
           else if i = 2 then some (PyVal.vint 9)
           else if i = 3 then some (PyVal.vint 17) else none⟩ =
      Except.ok (emptySats.set CName.gps [4, 9, 17], emptySigs) ∧
    extract_satellite_info
        ⟨some (PyVal.vint 1074), some (PyVal.vint 2), none, none,
         some (PyVal.vint 3), fun _ => none⟩ =
      Except.ok (emptySats.set CName.gps [1, 2], emptySigs) ∧
    extract_satellite_info
        ⟨some (PyVal.vint 1084), none, none, none, some (PyVal.vint 5),
         fun _ => none⟩ =
      Except.ok (emptySats.set CName.glonass [1, 3], emptySigs) := by
  refine ⟨?_, by decide, by decide, by decide, by decide⟩
  intro t h1 h2
  have ht : t = 1071 + ((t - 1071).toNat : Int) := by omega
  rw [ht]
  exact probe_constellation_ball (t - 1071).toNat (by omega)

/-- C4 witness: the constellation conjunct at the SBAS type code 1101. -/
theorem c4_msm_extraction_witness :
    extract_satellite_info (probe 1101) =
      Except.ok (emptySats.set (claimConstellation 1101) [1], emptySigs) :=
  c4_msm_extraction.1 1101 (by decide) (by decide)

/-! ## C10: totality and typing of `extract_satellite_info` -/

/-- Whether an `Except` result is a normal return. -/
def isOkE : Except ε α → Bool
  | Except.ok _ => true
  | Except.error _ => false

/-- The attribute values on which Python's `v > 0` does not raise: absent
(`getattr` default applies) or an int. -/
def intLike : Option PyVal → Prop
  | none => True
  | some (PyVal.vint _) => True
  | _ => False

/-- An element of `addElem l x` is an old element or `x` itself. -/
theorem mem_addElem_elim [DecidableEq α] {l : List α} {x k : α}
    (h : k ∈ addElem l x) : k ∈ l ∨ k = x := by
  unfold addElem at h
  split at h
  · exact Or.inl h
  · rcases List.mem_append.mp h with h | h
    · exact Or.inl h
    · exact Or.inr (List.mem_singleton.mp h)

/-- Fold invariant: if every step only adds elements satisfying `P`, every
element of the fold is an initial element or satisfies `P`. -/
theorem foldl_mem_inv {β : Type} (P : Int → Prop) (step : List Int → β → List Int) :
    ∀ (l : List β), (∀ s b, b ∈ l → ∀ k, k ∈ step s b → k ∈ s ∨ P k) →
      ∀ (s : List Int), (∀ k ∈ s, P k) → ∀ k ∈ l.foldl step s, P k := by
  intro l
  induction l with
  | nil => intro _ s hs k hk; exact hs k hk
  | cons b t ih =>
    intro hstep s hs k hk
    refine ih (fun s' b' hb' => hstep s' b' (List.mem_cons_of_mem _ hb'))
      (step s b) ?_ k hk
    intro k' hk'
    rcases hstep s b (List.mem_cons_self b t) k' hk' with h | h
    · exact hs k' h
    · exact h

/-- Every PRN taken from the explicit fields is positive. -/
theorem prnLoop_pos (p : Parsed) (n : Nat) : ∀ k ∈ prnLoop p n, 0 < k := by
  unfold prnLoop
  refine foldl_mem_inv (fun k => 0 < k) _ _ ?_ [] (by simp)
  intro s i _ k hk
  cases hp : p.PRN i with
  | none => simp only [hp] at hk; exact Or.inl hk
  | some v =>
    cases v with
    | vint j =>
      simp only [hp] at hk
      by_cases hj : 0 < j
      · rw [if_pos hj] at hk
        rcases mem_addElem_elim hk with h | h
        · exact Or.inl h
        · exact Or.inr (h ▸ hj)
      · rw [if_neg hj] at hk
        exact Or.inl hk
    | vstr s' => simp only [hp] at hk; exact Or.inl hk
    | vnone => simp only [hp] at hk; exact Or.inl hk

/-- Every PRN taken from the DF394 bitmask is positive (bit i−1 gives
PRN i with i in 1..64). -/
theorem maskLoop_pos (m : Int) : ∀ k ∈ maskLoop m, 0 < k := by
  unfold maskLoop
  refine foldl_mem_inv (fun k => 0 < k) _ _ ?_ [] (by simp)
  intro s prn hprn k hk
  have hge : 1 ≤ prn := by
    have h := List.mem_range'_1.mp hprn
    omega
  split at hk
  · rcases mem_addElem_elim hk with h | h
    · exact Or.inl h
    · refine Or.inr ?_
      rw [h]
      exact Int.ofNat_pos.mpr (by omega)
  · exact Or.inl hk

/-- Reading one constellation out of an updated dict. -/
theorem constMap_get_set {α : Type} (m : ConstMap α) (c c' : CName) (v : α) :
    (m.set c v).get c' = if c' = c then v else m.get c' := by
  cases c <;> cases c' <;> simp [ConstMap.set, ConstMap.get]

/-- All six entries of the empty satellite dict are empty. -/
theorem emptySats_get (c : CName) : emptySats.get c = [] := by
  cases c <;> rfl

/-- Every element of the satellite set built by `extract_satellite_info`
(explicit PRN fields when they yield satellites, else the DF394 fallback)
is positive. -/
theorem satsVal_pos (p : Parsed) (b1 : Bool) (n : Nat) (k : Int)
    (hk : k ∈ (if (if b1 = true then prnLoop p n else []) = []
        then match p.DF394.getD PyVal.vnone with
          | PyVal.vint m => if 0 < m then maskLoop m else []
          | _ => []
        else if b1 = true then prnLoop p n else [])) :
    0 < k := by
  cases b1 with
  | false =>
    have h0 : (if false = true then prnLoop p n else ([] : List Int)) = [] := by
      simp
    rw [h0, if_pos rfl] at hk
    cases hdf : p.DF394.getD PyVal.vnone with
    | vint m =>
      simp only [hdf] at hk
      split at hk
      · exact maskLoop_pos m k hk
      · simp at hk
    | vstr s => simp only [hdf] at hk; simp at hk
    | vnone => simp only [hdf] at hk; simp at hk
  | true =>
    have h1 : (if true = true then prnLoop p n else ([] : List Int)) = prnLoop p n := by
      simp
    rw [h1] at hk
    by_cases hpe : prnLoop p n = []
    · rw [if_pos hpe] at hk
      cases hdf : p.DF394.getD PyVal.vnone with
      | vint m =>
        simp only [hdf] at hk
        split at hk
        · exact maskLoop_pos m k hk
        · simp at hk
      | vstr s => simp only [hdf] at hk; simp at hk
      | vnone => simp only [hdf] at hk; simp at hk
    · rw [if_neg hpe] at hk
      exact prnLoop_pos p n k hk

/-- C10 counterexample: `extract_satellite_info` can raise.  The source
catches only `ValueError` and `AttributeError`, but `nsat > 0` raises an
uncaught `TypeError` whenever the frame's `NSat` attribute holds a
non-int (here the string "3"), refuting "never raises" for arbitrary
input objects. -/
theorem c10_extractor_raises_cex :
    extract_satellite_info ⟨some (PyVal.vint 1074), some (PyVal.vstr "3"),
      none, none, none, fun _ => none⟩ = Except.error PyErr.typeError := by
  decide

/-- C10 (amended): `extract_satellite_info` returns a pair of dicts with
exactly the six constellation keys (the `ConstMap` record) and does not
raise provided the `NSat` and `NSig` attributes are absent or ints — with
a non-int in either, the comparison against `0` raises an uncaught
`TypeError`; every returned satellite set is empty whenever the identity
does not read as an integer in [1071, 1127] (`int(str(identity))` raising
`ValueError`, or out of range); and a PRN that is not a positive integer
is never added to any satellite set. -/
theorem c10_extractor_totality :
    (∀ p : Parsed, intLike p.NSat → intLike p.NSig →
      isOkE (extract_satellite_info p) = true) ∧
    (∀ p : Parsed, identityNum p = none →
      extract_satellite_info p = Except.ok (emptySats, emptySigs)) ∧
    (∀ (p : Parsed) (t : Int), identityNum p = some t → (t < 1071 ∨ 1127 < t) →
      extract_satellite_info p = Except.ok (emptySats, emptySigs)) ∧
    (∀ (p : Parsed) (r : ConstMap (List Int) × ConstMap (List String)),
      extract_satellite_info p = Except.ok r →
      ∀ (c : CName) (k : Int), k ∈ r.1.get c → 0 < k) := by
  refine ⟨?_, ?_, ?_, ?_⟩
  · intro p hsat hsig
    unfold extract_satellite_info
    cases hid : identityNum p with
    | none => rfl
    | some t =>
      dsimp only
      by_cases hr : 1071 ≤ t ∧ t ≤ 1127
      · rw [if_pos hr]
        cases hc : constellationMap ((t - 1071).toNat / 10) with
        | none => rfl
        | some c =>
          obtain ⟨b1, hb1⟩ : ∃ b1, pyGtZero (p.NSat.getD (PyVal.vint 0)) = Except.ok b1 := by
            cases hns : p.NSat with
            | none => exact ⟨_, rfl⟩
            | some v =>
              cases v with
              | vint n => exact ⟨_, rfl⟩
              | vstr s => rw [hns] at hsat; simp [intLike] at hsat
              | vnone => rw [hns] at hsat; simp [intLike] at hsat
          obtain ⟨b2, hb2⟩ : ∃ b2, pyGtZero (p.NSig.getD (PyVal.vint 0)) = Except.ok b2 := by
            cases hng : p.NSig with
            | none => exact ⟨_, rfl⟩
            | some v =>
              cases v with
              | vint n => exact ⟨_, rfl⟩
              | vstr s => rw [hng] at hsig; simp [intLike] at hsig
              | vnone => rw [hng] at hsig; simp [intLike] at hsig
          simp only [hb1, hb2]
          rfl
      · rw [if_neg hr]
        rfl
  · intro p h
    unfold extract_satellite_info
    rw [h]
  · intro p t h hrange
    unfold extract_satellite_info
    rw [h]
    dsimp only
    rw [if_neg (show ¬(1071 ≤ t ∧ t ≤ 1127) by rcases hrange with h' | h' <;> omega)]
  · intro p r h c k hk
    unfold extract_satellite_info at h
    cases hid : identityNum p with
    | none =>
      rw [hid] at h
      have := Except.ok.inj h
      subst this
      rw [emptySats_get] at hk
      simp at hk
    | some t =>
      rw [hid] at h
      dsimp only at h
      by_cases hr : 1071 ≤ t ∧ t ≤ 1127
      · rw [if_pos hr] at h
        cases hc : constellationMap ((t - 1071).toNat / 10) with
        | none =>
          rw [hc] at h
          have := Except.ok.inj h
          subst this
          rw [emptySats_get] at hk
          simp at hk
        | some c0 =>
          rw [hc] at h
          cases hb1 : pyGtZero (p.NSat.getD (PyVal.vint 0)) with
          | error e =>
            simp only [hb1] at h
            exact Except.noConfusion h
          | ok b1 =>
            simp only [hb1] at h
            cases hb2 : pyGtZero (p.NSig.getD (PyVal.vint 0)) with
            | error e =>
              simp only [hb2] at h
              exact Except.noConfusion h
            | ok b2 =>
              simp only [hb2] at h
              have hpair := Except.ok.inj h
              subst hpair
              rw [constMap_get_set] at hk
              split at hk
              · exact satsVal_pos p b1 _ k hk
              · rw [emptySats_get] at hk
                simp at hk
      · rw [if_neg hr] at h
        have := Except.ok.inj h
        subst this
        rw [emptySats_get] at hk
        simp at hk

/-- C10 witness: the totality theorem at the probe frame of type 1074
(absent `NSat`/`NSig` attributes are int-like). -/
theorem c10_extractor_totality_witness :
    isOkE (extract_satellite_info (probe 1074)) = true :=
  c10_extractor_totality.1 (probe 1074) trivial trivial

end NTRIP
